import Mathlib

/-!
Shallow embedding of the event-aggregation core of the gastown-dispatch
repository:

* `src/backend/src/services/telemetry.ts` — `TelemetryStreamer`
  (snapshot building, change detection, alert evaluation with cooldown,
  client lifecycle, broadcast fan-out);
* `src/backend/src/services/streaming.ts` — `DispatchStreamer.sendToAll`
  (same fan-out loop shape as `TelemetryStreamer.broadcast`);
* the frontend hook `useUnifiedEventFeed` (client-side merge, dedup, cap).

Stateful TypeScript methods are modelled as explicit state-passing
functions; the event-loop interleaving of the recurring poll timer is
modelled as a small step relation.  ISO-8601 timestamp strings that the
code immediately converts to epoch milliseconds (`Date.getTime`,
`Date.now`) are modelled directly as `Int` millisecond values.
Human-readable `message` strings and the untyped `data` payloads of
alerts are omitted: no claim concerns them; the structured `data`
payload of change events (agent, bead id, title, old/new state) is kept
because the diff claims do concern it.
-/

namespace Gastown

/-! ## Data model (types/gasown.ts, as used by telemetry.ts) -/

/-- Message-queue summary nested in a rig (`rig.mq`). -/
structure MQSummary where
  pending : Nat
  in_flight : Nat
  state : String
  health : String
deriving DecidableEq

/-- Entry of `rig.agents` (only the `name` field is consulted). -/
structure RigAgentRef where
  name : String
deriving DecidableEq

/-- Entry of `rig.hooks` (only the `agent` field is consulted). -/
structure RigHook where
  agent : String
deriving DecidableEq

/-- `AgentRuntime`: one agent as reported by the status source.
Optional TS fields are `Option`; `hook_bead` / `work_title` / `state`
may be absent. -/
structure AgentRuntime where
  name : String
  role : String
  running : Bool
  has_work : Bool
  hook_bead : Option String
  work_title : Option String
  state : Option String
deriving DecidableEq

/-- `RigStatus`: one rig as reported by the status source. -/
structure RigStatus where
  name : String
  polecat_count : Nat
  crew_count : Nat
  has_witness : Bool
  has_refinery : Bool
  mq : Option MQSummary
  agents : Option (List RigAgentRef)
  hooks : Option (List RigHook)
deriving DecidableEq

/-- `TownStatus`: the primary snapshot-source payload. -/
structure TownStatus where
  agents : List AgentRuntime
  rigs : List RigStatus
deriving DecidableEq

/-! ## Telemetry message shapes (telemetry.ts interfaces) -/

inductive SystemStatus
  | healthy
  | degraded
  | offline
deriving DecidableEq

inductive Severity
  | warning
  | critical
deriving DecidableEq

inductive Category
  | agent
  | work
  | system
  | rig
deriving DecidableEq

/-- `AgentTelemetry` item of a snapshot. -/
structure AgentTelemetry where
  name : String
  role : String
  rig : Option String
  running : Bool
  has_work : Bool
  work_id : Option String
  work_title : Option String
  state : Option String
deriving DecidableEq

/-- `RigTelemetry` item of a snapshot. -/
structure RigTelemetry where
  name : String
  polecat_count : Nat
  crew_count : Nat
  has_witness : Bool
  has_refinery : Bool
  mq_pending : Nat
  mq_in_flight : Nat
  mq_state : String
  mq_health : String
deriving DecidableEq

structure AgentsBlock where
  total : Nat
  running : Nat
  idle : Nat
  with_work : Nat
  stuck : Nat
  items : List AgentTelemetry
deriving DecidableEq

structure RigsBlock where
  total : Nat
  healthy : Nat
  degraded : Nat
  items : List RigTelemetry
deriving DecidableEq

structure WorkBlock where
  ready : Nat
  blocked : Nat
  in_progress : Nat
deriving DecidableEq

structure MessageQueueBlock where
  pending : Nat
  in_flight : Nat
deriving DecidableEq

structure SystemBlock where
  status : SystemStatus
  message_queue : MessageQueueBlock
deriving DecidableEq

/-- `TelemetrySnapshot` (the `type: "snapshot"` tag lives in
`TelemetryMsg`; the ISO timestamp is epoch milliseconds here). -/
structure TelemetrySnapshot where
  timestamp : Int
  agents : AgentsBlock
  rigs : RigsBlock
  work : WorkBlock
  system : SystemBlock
deriving DecidableEq

/-- Structured payload of a change event (the fields actually written by
`detectChanges`; the TS type is an untyped record). -/
structure EventData where
  agent : Option String := none
  role : Option String := none
  bead_id : Option String := none
  title : Option String := none
  old_state : Option String := none
  new_state : Option String := none
  rig : Option String := none
  error : Option String := none
deriving DecidableEq

/-- `TelemetryEvent` (change event); the human-readable `message` string
is omitted (no claim concerns it). -/
structure TelemetryEvent where
  category : Category
  event_type : String
  data : EventData
deriving DecidableEq

/-- `TelemetryAlert`; `message`/`data` omitted (no claim concerns them). -/
structure TelemetryAlert where
  severity : Severity
  category : Category
  code : String
deriving DecidableEq

/-- The tagged union broadcast over the stream (`TelemetryMessage`). -/
inductive TelemetryMsg
  | snapshot (s : TelemetrySnapshot)
  | event (e : TelemetryEvent)
  | alert (a : TelemetryAlert)
deriving DecidableEq

def isSnapshotMsg : TelemetryMsg → Bool
  | .snapshot _ => true
  | _ => false

def isEventMsg : TelemetryMsg → Bool
  | .event _ => true
  | _ => false

def isAlertMsg : TelemetryMsg → Bool
  | .alert _ => true
  | _ => false

/-! ## buildSnapshot (telemetry.ts 174-268) -/

/-- `mapAgentTelemetry`: `rigs.find(r => r.agents?.some(...) ||
r.hooks?.some(...))`; an absent optional list is falsy in JS, i.e.
behaves as an empty list. -/
def mapAgentTelemetry (agent : AgentRuntime) (rigs : List RigStatus) : AgentTelemetry :=
  let rig := rigs.find? (fun r =>
    ((r.agents.getD []).any (fun a => a.name == agent.name)) ||
    ((r.hooks.getD []).any (fun h => h.agent == agent.name)))
  { name := agent.name
    role := agent.role
    rig := rig.map (fun r => r.name)
    running := agent.running
    has_work := agent.has_work
    work_id := agent.hook_bead
    work_title := agent.work_title
    state := agent.state }

/-- `mapRigTelemetry`: `mq?.field || default` on each queue field. -/
def mapRigTelemetry (rig : RigStatus) : RigTelemetry :=
  { name := rig.name
    polecat_count := rig.polecat_count
    crew_count := rig.crew_count
    has_witness := rig.has_witness
    has_refinery := rig.has_refinery
    mq_pending := (rig.mq.map (fun m => m.pending)).getD 0
    mq_in_flight := (rig.mq.map (fun m => m.in_flight)).getD 0
    mq_state := (rig.mq.map (fun m => m.state)).getD "idle"
    mq_health := (rig.mq.map (fun m => m.health)).getD "healthy" }

/-- `buildSnapshot`.  `now` stands for `new Date()` (epoch ms). -/
def buildSnapshot (status : Option TownStatus) (initialized : Bool)
    (readyCount blockedCount : Nat) (now : Int) : TelemetrySnapshot :=
  let agents := (status.map (fun s => s.agents)).getD []
  let rigs := (status.map (fun s => s.rigs)).getD []
  let runningAgents := agents.filter (fun a => a.running)
  let idleAgents := runningAgents.filter (fun a => !a.has_work)
  let withWork := agents.filter (fun a => a.has_work)
  let stuckAgents := agents.filter (fun a => a.state == some "stuck")
  let mqSummaries := rigs.filterMap (fun r => r.mq)
  let totalPending := (mqSummaries.map (fun m => m.pending)).sum
  let totalInFlight := (mqSummaries.map (fun m => m.in_flight)).sum
  let healthyRigs := (rigs.filter (fun r =>
    r.mq == none || (r.mq.map (fun m => m.health)) == some "healthy")).length
  let degradedRigs := (rigs.filter (fun r =>
    (r.mq.map (fun m => m.health)) == some "stale" ||
    (r.mq.map (fun m => m.state)) == some "blocked")).length
  let systemStatus : SystemStatus :=
    if !initialized then SystemStatus.offline
    else if degradedRigs > 0 || stuckAgents.length > 0 then SystemStatus.degraded
    else SystemStatus.healthy
  { timestamp := now
    agents :=
      { total := agents.length
        running := runningAgents.length
        idle := idleAgents.length
        with_work := withWork.length
        stuck := stuckAgents.length
        items := agents.map (fun a => mapAgentTelemetry a rigs) }
    rigs :=
      { total := rigs.length
        healthy := healthyRigs
        degraded := degradedRigs
        items := rigs.map mapRigTelemetry }
    work :=
      { ready := readyCount
        blocked := blockedCount
        in_progress := withWork.length }
    system :=
      { status := systemStatus
        message_queue := { pending := totalPending, in_flight := totalInFlight } } }

/-! ## detectChanges (telemetry.ts 270-327) -/

/-- JS truthiness of the optional `agent.state` string: absent and the
empty string are falsy. -/
def stateTruthy (o : Option String) : Bool := o.getD "" != ""

/-- The per-agent branch chain of `detectChanges` for one agent of
`curr.agents` (emits at most one event, first match wins). -/
def agentChangeEvent (prevAgents : List AgentRuntime) (agent : AgentRuntime) :
    Option TelemetryEvent :=
  match prevAgents.find? (fun a => a.name == agent.name) with
  | none =>
      some { category := Category.agent, event_type := "joined",
             data := { agent := some agent.name, role := some agent.role } }
  | some prevAgent =>
      if prevAgent.running != agent.running then
        some { category := Category.agent,
               event_type := if agent.running then "started" else "stopped",
               data := { agent := some agent.name } }
      else if !prevAgent.has_work && agent.has_work then
        some { category := Category.work, event_type := "started",
               data := { agent := some agent.name, bead_id := agent.hook_bead,
                         title := agent.work_title } }
      else if prevAgent.has_work && !agent.has_work then
        some { category := Category.work, event_type := "completed",
               data := { agent := some agent.name, bead_id := prevAgent.hook_bead } }
      else if prevAgent.state != agent.state && stateTruthy agent.state then
        some { category := Category.agent, event_type := "state_changed",
               data := { agent := some agent.name, old_state := prevAgent.state,
                         new_state := agent.state } }
      else
        none

/-- The per-rig branch of `detectChanges` for one rig of `curr.rigs`. -/
def rigChangeEvent (prevRigs : List RigStatus) (rig : RigStatus) :
    Option TelemetryEvent :=
  match prevRigs.find? (fun r => r.name == rig.name) with
  | none =>
      some { category := Category.rig, event_type := "added",
             data := { rig := some rig.name } }
  | some prevRig =>
      if (prevRig.mq.map (fun m => m.state)) != (rig.mq.map (fun m => m.state)) &&
         (rig.mq.map (fun m => m.state)) == some "blocked" then
        some { category := Category.rig, event_type := "blocked",
               data := { rig := some rig.name } }
      else
        none

/-- `detectChanges`, in source emission order: the `curr.agents` loop,
then the departed-agents loop, then the `curr.rigs` loop. -/
def detectChanges (prev curr : TownStatus) : List TelemetryEvent :=
  (curr.agents.filterMap (agentChangeEvent prev.agents)) ++
  (prev.agents.filterMap (fun prevAgent =>
    if curr.agents.find? (fun a => a.name == prevAgent.name) == none then
      some { category := Category.agent, event_type := "left",
             data := { agent := some prevAgent.name } }
    else none)) ++
  (curr.rigs.filterMap (rigChangeEvent prev.rigs))

/-! ## checkAlerts (telemetry.ts 329-413) -/

/-- `alertState` map: alert code to last-fired epoch-ms timestamp. -/
def AlertState : Type := String → Option Int

def ALERT_COOLDOWN : Int := 60000

/-- The `maybeAlert` closure: fire only if
`now - (alertState.get(code) || 0) > ALERT_COOLDOWN`; on fire append the
alert and record `alertState.set(code, now)`. -/
def maybeAlert (now : Int) (code : String) (severity : Severity)
    (category : Category) (acc : List TelemetryAlert × AlertState) :
    List TelemetryAlert × AlertState :=
  let lastEmit := (acc.2 code).getD 0
  if now - lastEmit > ALERT_COOLDOWN then
    (acc.1 ++ [{ severity := severity, category := category, code := code }],
     fun c => if c = code then some now else acc.2 c)
  else acc

/-- One `if (condition) { maybeAlert(...) }` block. -/
def fireStep (cond : Prop) [Decidable cond] (now : Int) (code : String)
    (severity : Severity) (category : Category)
    (acc : List TelemetryAlert × AlertState) : List TelemetryAlert × AlertState :=
  if cond then maybeAlert now code severity category acc else acc

/-- `alertState.delete(code)`. -/
def deleteCode (st : AlertState) (code : String) : AlertState :=
  fun c => if c = code then none else st c

/-- One `if (cleared-condition) { alertState.delete(code) }` block. -/
def clearStep (cond : Prop) [Decidable cond] (code : String) (st : AlertState) :
    AlertState :=
  if cond then deleteCode st code else st

/-- `checkAlerts`: the six fire guards in source order, then the six
clear guards in source order. -/
def checkAlerts (s : TelemetrySnapshot) (st : AlertState) (now : Int) :
    List TelemetryAlert × AlertState :=
  let a1 := fireStep (s.system.status = SystemStatus.offline) now
    "system_offline" Severity.critical Category.system ([], st)
  let a2 := fireStep (s.agents.stuck > 0) now
    "agents_stuck" Severity.warning Category.agent a1
  let a3 := fireStep (s.system.message_queue.pending > 50) now
    "mq_backlog" Severity.warning Category.system a2
  let a4 := fireStep (s.rigs.degraded > 0) now
    "rigs_degraded" Severity.warning Category.rig a3
  let a5 := fireStep (s.work.ready > 100) now
    "work_backlog" Severity.warning Category.work a4
  let a6 := fireStep (s.agents.running = 0 ∧ s.work.ready > 0) now
    "no_agents" Severity.critical Category.agent a5
  let st7 := clearStep (s.system.status ≠ SystemStatus.offline) "system_offline" a6.2
  let st8 := clearStep (s.agents.stuck = 0) "agents_stuck" st7
  let st9 := clearStep (s.system.message_queue.pending ≤ 50) "mq_backlog" st8
  let st10 := clearStep (s.rigs.degraded = 0) "rigs_degraded" st9
  let st11 := clearStep (s.work.ready ≤ 100) "work_backlog" st10
  let st12 := clearStep (s.agents.running > 0 ∨ s.work.ready = 0) "no_agents" st11
  (a6.1, st12)

/-! ## TelemetryStreamer lifecycle state (telemetry.ts 83-134, 91-113) -/

/-- Mutable fields of the `TelemetryStreamer` singleton.  `clients`
keeps the `Map` keys in insertion order; `pollActive` is
`pollInterval !== null`. -/
structure StreamerState where
  clients : List String
  pollActive : Bool
  townRoot : Option String
  lastSnapshot : Option TelemetrySnapshot
  previousStatus : Option TownStatus
  alertState : AlertState

/-- `Map.set` key semantics: existing key keeps its position, a new key
is appended. -/
def setClient (clients : List String) (id : String) : List String :=
  if clients.contains id then clients else clients ++ [id]

/-- `stopPolling`: cancel the timer, discard the previous status and all
alert cooldown state.  `lastSnapshot` is NOT cleared. -/
def stopPolling (st : StreamerState) : StreamerState :=
  { st with pollActive := false, previousStatus := none,
            alertState := fun _ => none }

/-- `addClient`: register the client, overwrite `townRoot`, and
immediately send the last snapshot (if any) to the new client; polling
starts when the map size becomes 1.  Returns the messages sent to the
new client and the new state (the initial poll triggered by
`startPolling` is modelled as a subsequent `poll` application). -/
def addClient (st : StreamerState) (id : String) (townRoot : Option String) :
    List TelemetryMsg × StreamerState :=
  let clients := setClient st.clients id
  let initial : List TelemetryMsg :=
    match st.lastSnapshot with
    | some snap => [TelemetryMsg.snapshot snap]
    | none => []
  (initial,
   { st with clients := clients, townRoot := townRoot,
             pollActive := st.pollActive || clients.length = 1 })

/-- `removeClient`: delete the client; when the map becomes empty, stop
polling. -/
def removeClient (st : StreamerState) (id : String) : StreamerState :=
  let clients := st.clients.filter (fun c => c ≠ id)
  let st1 := { st with clients := clients }
  if clients.length = 0 then stopPolling st1 else st1

/-! ## poll (telemetry.ts 136-172) -/

/-- Result of the joined fetches of one tick.  `readyCount` and
`blockedCount` are the lengths of the `getReadyBeads`/`getBlockedBeads`
lists; a failed sub-fetch is caught and degraded to `[]`, i.e. count 0,
so only the counts matter here. -/
structure FetchResult where
  initialized : Bool
  status : Option TownStatus
  readyCount : Nat
  blockedCount : Nat
deriving DecidableEq

/-- One tick of `poll`, as a pure function of the fetch outcome.  The
returned list holds the broadcast messages in emission order: the
snapshot first, then the change events (only when both a current status
and a previous status exist), then the alerts.  A primary fetch failure
is caught and surfaces as a single synthetic system error event, leaving
the state unchanged. -/
def poll (st : StreamerState) (fetched : Except String FetchResult) (now : Int) :
    List TelemetryMsg × StreamerState :=
  match fetched with
  | Except.error e =>
      ([TelemetryMsg.event
          { category := Category.system, event_type := "error",
            data := { error := some e } }], st)
  | Except.ok fr =>
      let status := fr.status
      let snapshot := buildSnapshot status fr.initialized fr.readyCount fr.blockedCount now
      let changes : List TelemetryEvent :=
        match status, st.previousStatus with
        | some curr, some prev => detectChanges prev curr
        | _, _ => []
      let ar := checkAlerts snapshot st.alertState now
      ([TelemetryMsg.snapshot snapshot] ++
         changes.map TelemetryMsg.event ++
         ar.1.map TelemetryMsg.alert,
       { st with lastSnapshot := some snapshot,
                 previousStatus := status,
                 alertState := ar.2 })

/-- `poll` invokes `getTownStatus(this.townRoot)`: the fetch scope is
always the streamer's current `townRoot`. -/
def pollWith (st : StreamerState)
    (fetchFn : Option String → Except String FetchResult) (now : Int) :
    List TelemetryMsg × StreamerState :=
  poll st (fetchFn st.townRoot) now

/-! ## Broadcast fan-out (telemetry.ts 453-457; streaming.ts sendToAll)

Both `TelemetryStreamer.broadcast` and `DispatchStreamer.sendToAll` are
the same loop: `for (const client of this.clients.values())
client.send(event, data);` with no per-client try/catch, so a throwing
`send` aborts the loop and the exception propagates to the caller. -/

/-- A subscriber handle; `sendOk = false` models a delivery function
that throws when called. -/
structure Subscriber where
  id : String
  sendOk : Bool
deriving DecidableEq

/-- Run of the broadcast loop over the subscriber list (in `Map`
insertion order).  Returns the ids whose `send` was called and returned,
and whether the loop completed without an exception. -/
def broadcastRun : List Subscriber → List String × Bool
  | [] => ([], true)
  | c :: rest =>
      if c.sendOk then
        let r := broadcastRun rest
        (c.id :: r.1, r.2)
      else ([], false)

/-! ## Poll-overlap model (telemetry.ts 115-125 with event-loop
interleaving)

`startPolling` runs an initial `poll()` and then
`setInterval(() => { this.poll(); }, 5000)`.  `poll` is `async` and
suspends at its awaits, so the interval callback can run while a
previous `poll` is still in flight; the callback starts a new `poll`
unconditionally — there is no in-flight guard, skip, or deferral in the
code.  States count the in-flight `poll` executions. -/

structure PollerConc where
  timerActive : Bool
  inFlight : Nat
deriving DecidableEq

/-- Event-loop steps: a timer tick starts a new poll whenever the timer
is active (regardless of in-flight polls); a completion retires one
in-flight poll. -/
inductive PollerStep : PollerConc → PollerConc → Prop
  | tick (s : PollerConc) (h : s.timerActive = true) :
      PollerStep s { s with inFlight := s.inFlight + 1 }
  | complete (s : PollerConc) (h : 0 < s.inFlight) :
      PollerStep s { s with inFlight := s.inFlight - 1 }

/-- State right after `startPolling` on the 0→1 subscriber transition:
the initial poll is in flight and the interval timer is set. -/
def pollerInit : PollerConc := { timerActive := true, inFlight := 1 }

/-- Reachability from `pollerInit` under event-loop interleaving. -/
inductive PollerReachable : PollerConc → Prop
  | init : PollerReachable pollerInit
  | step (s t : PollerConc) (hs : PollerReachable s) (h : PollerStep s t) :
      PollerReachable t

/-! ## Client merger (useUnifiedEventFeed: addEvent) -/

inductive UnifiedEventType
  | convoy
  | sling
  | step
  | merge
  | escalation
  | agent
  | system
deriving DecidableEq

inductive EventSeverity
  | info
  | warning
  | error
deriving DecidableEq

/-- `UnifiedEvent`; the ISO timestamp string is modelled as the epoch-ms
value `new Date(e.timestamp).getTime()` that the dedup check computes
from it.  The `metadata` bag is omitted (no claim concerns it). -/
structure UnifiedEvent where
  id : String
  timestamp : Int
  type : UnifiedEventType
  severity : EventSeverity
  title : String
  description : Option String := none
deriving DecidableEq

/-- The dedup criterion of `addEvent` comparing one existing entry `e`
against the incoming `event`: same type, same title, timestamps within
1000 ms. -/
def dupMatch (e event : UnifiedEvent) : Bool :=
  e.type == event.type && e.title == event.title &&
  (e.timestamp - event.timestamp).natAbs < 1000

/-- Dedup scan of `addEvent` over the existing entries. -/
def isDuplicate (prev : List UnifiedEvent) (event : UnifiedEvent) : Bool :=
  prev.any (fun e => dupMatch e event)

/-- `addEvent`: drop duplicates, else prepend and trim to `maxEvents`
(`[event, ...prev].slice(0, maxEvents)`). -/
def addEvent (maxEvents : Nat) (prev : List UnifiedEvent) (event : UnifiedEvent) :
    List UnifiedEvent :=
  if isDuplicate prev event then prev else (event :: prev).take maxEvents

/-- Feeding a sequence of events through `addEvent`, starting from the
given list. -/
def feedEvents (maxEvents : Nat) (start : List UnifiedEvent)
    (es : List UnifiedEvent) : List UnifiedEvent :=
  es.foldl (addEvent maxEvents) start

/-! ## Statement-side vocabulary

The six alert codes of `checkAlerts`, with each code's firing condition
as it appears in the source guards (the clear guards are their exact
negations). -/

inductive AlertCode
  | system_offline
  | agents_stuck
  | mq_backlog
  | rigs_degraded
  | work_backlog
  | no_agents
deriving DecidableEq

def AlertCode.str : AlertCode → String
  | .system_offline => "system_offline"
  | .agents_stuck => "agents_stuck"
  | .mq_backlog => "mq_backlog"
  | .rigs_degraded => "rigs_degraded"
  | .work_backlog => "work_backlog"
  | .no_agents => "no_agents"

def AlertCode.cond : AlertCode → TelemetrySnapshot → Prop
  | .system_offline => fun s => s.system.status = SystemStatus.offline
  | .agents_stuck => fun s => s.agents.stuck > 0
  | .mq_backlog => fun s => s.system.message_queue.pending > 50
  | .rigs_degraded => fun s => s.rigs.degraded > 0
  | .work_backlog => fun s => s.work.ready > 100
  | .no_agents => fun s => s.agents.running = 0 ∧ s.work.ready > 0

instance (c : AlertCode) (s : TelemetrySnapshot) : Decidable (c.cond s) := by
  cases c <;> simp only [AlertCode.cond] <;> infer_instance

/-! ## Concrete fixtures used by counterexamples and witnesses -/

/-- A client-merger event with the given timestamp and title (type and
severity fixed). -/
def mkFeedEvent (ts : Int) (ttl : String) : UnifiedEvent :=
  { id := "e", timestamp := ts, type := UnifiedEventType.system,
    severity := EventSeverity.info, title := ttl }

/-- 150 unique merger events, 2 seconds apart (never within the 1000 ms
dedup window of each other). -/
def capFeed : List UnifiedEvent :=
  (List.range 150).map (fun i => mkFeedEvent (2000 * Int.ofNat i) "cap")

/-- A rig whose message queue holds 51 pending items. -/
def rigMQ : RigStatus :=
  { name := "r1", polecat_count := 0, crew_count := 0, has_witness := false,
    has_refinery := false,
    mq := some { pending := 51, in_flight := 0, state := "active", health := "healthy" },
    agents := none, hooks := none }

/-- A town whose only rig has a 51-deep message queue: the `mq_backlog`
condition holds, no other alert condition does. -/
def townMQ : TownStatus := { agents := [], rigs := [rigMQ] }

/-- Snapshot of `townMQ` (pending = 51 > 50). -/
def snapMQ : TelemetrySnapshot := buildSnapshot (some townMQ) true 0 0 0

/-- Snapshot of an initialized empty town: no alert condition holds. -/
def snapQuiet : TelemetrySnapshot :=
  buildSnapshot (some { agents := [], rigs := [] }) true 0 0 0

/-- Alert state in which `mq_backlog` fired at t = 0. -/
def stFiredMQ : AlertState :=
  fun c => if c = "mq_backlog" then some 0 else none

/-- Fetch result of an uninitialized system (status source reports
`initialized: false`). -/
def frOffline : FetchResult :=
  { initialized := false, status := none, readyCount := 0, blockedCount := 0 }

/-- A successful, quiet fetch result. -/
def frQuiet : FetchResult :=
  { initialized := true, status := some { agents := [], rigs := [] },
    readyCount := 0, blockedCount := 0 }

/-- A streamer state mid-session: one client, stale previous status and
cooldown state, and a last snapshot built during the session. -/
def sessionState : StreamerState :=
  { clients := ["c1"], pollActive := true, townRoot := some "/town",
    lastSnapshot := some snapMQ, previousStatus := some townMQ,
    alertState := stFiredMQ }

/-- The `polecat-1` agent before picking up work (spec §8 scenario). -/
def polecatBefore : AgentRuntime :=
  { name := "polecat-1", role := "polecat", running := true, has_work := false,
    hook_bead := none, work_title := none, state := none }

/-- The `polecat-1` agent after picking up bead `bd-42`. -/
def polecatAfter : AgentRuntime :=
  { name := "polecat-1", role := "polecat", running := true, has_work := true,
    hook_bead := some "bd-42", work_title := some "Fix login", state := none }

def townBefore : TownStatus := { agents := [polecatBefore], rigs := [] }

def townAfter : TownStatus := { agents := [polecatAfter], rigs := [] }

/-- The change events of one tick attributed to the agent named `nm`
(the events whose `data.agent` payload is that name). -/
def agentEvents (prev curr : TownStatus) (nm : String) : List TelemetryEvent :=
  (detectChanges prev curr).filter (fun e => e.data.agent == some nm)

/-! # Theorems -/

/-- C1 counterexample: three subscribers, the first one's delivery
function throws.  The broadcast loop delivers to nobody — in particular
the two non-throwing subscribers `s2` and `s3` do NOT receive the event
— and the exception escapes the loop.  This refutes the claim that the
other two subscribers are still called. -/
theorem broadcast_throw_counterexample :
    (broadcastRun [{ id := "s1", sendOk := false },
                   { id := "s2", sendOk := true },
                   { id := "s3", sendOk := true }]).1 = [] ∧
    ¬ ("s2" ∈ (broadcastRun [{ id := "s1", sendOk := false },
                             { id := "s2", sendOk := true },
                             { id := "s3", sendOk := true }]).1) ∧
    (broadcastRun [{ id := "s1", sendOk := false },
                   { id := "s2", sendOk := true },
                   { id := "s3", sendOk := true }]).2 = false := by
  decide

/-- C1 (amended): the broadcast loop has no per-subscriber isolation.
Exactly the subscribers strictly before the first throwing one receive
the event; from the first throwing subscriber on, nobody is called, and
the loop completes without exception only when no subscriber throws. -/
theorem broadcast_prefix_delivery (cs : List Subscriber) :
    broadcastRun cs =
      ((cs.takeWhile (fun c => c.sendOk)).map (fun c => c.id),
       cs.all (fun c => c.sendOk)) := by
  induction cs with
  | nil => rfl
  | cons c rest ih =>
      by_cases h : c.sendOk = true
      · simp [broadcastRun, List.takeWhile_cons, h, ih]
      · simp only [Bool.not_eq_true] at h
        simp [broadcastRun, List.takeWhile_cons, h]

/-- C3 counterexample: from the state right after `startPolling` (one
poll in flight, timer armed), a single timer tick — fired while the
first poll is still in flight — reaches a state with two concurrent
in-flight polls, refuting "never run concurrently with itself". -/
theorem poll_overlap_counterexample :
    PollerReachable { timerActive := true, inFlight := 2 } ∧ ¬ (2 ≤ 1) := by
  constructor
  · exact PollerReachable.step pollerInit _ PollerReachable.init
      (PollerStep.tick pollerInit rfl)
  · decide

/-- C3 (amended): the interval callback starts a new `poll`
unconditionally — the code neither skips a tick nor defers it while a
poll is in flight — so overlap is possible and unbounded: after `n`
ticks with no completion, `n + 1` polls are in flight concurrently. -/
theorem poll_overlap_unbounded (n : Nat) :
    PollerReachable { timerActive := true, inFlight := n + 1 } := by
  induction n with
  | zero => exact PollerReachable.init
  | succ k ih =>
      exact PollerReachable.step { timerActive := true, inFlight := k + 1 } _
        ih (PollerStep.tick { timerActive := true, inFlight := k + 1 } rfl)

/-! ## Client merger lemmas -/

theorem take_cons_take (e : UnifiedEvent) (l : List UnifiedEvent) (cap : Nat) :
    (e :: l.take cap).take cap = (e :: l).take cap := by
  cases cap with
  | zero => simp
  | succ n =>
      simp only [List.take_succ_cons, List.take_take]
      rw [Nat.min_eq_left (Nat.le_succ n)]

theorem addEvent_not_dup (cap : Nat) (l : List UnifiedEvent) (e : UnifiedEvent)
    (h : ∀ a ∈ l, dupMatch a e = false) :
    addEvent cap l e = (e :: l).take cap := by
  have hdup : isDuplicate l e = false := by
    simp only [isDuplicate, List.any_eq_false, Bool.not_eq_true]
    exact h
  simp [addEvent, hdup]

theorem feedEvents_fresh (cap : Nat) (es : List UnifiedEvent) :
    ∀ l : List UnifiedEvent,
      (∀ b ∈ es, ∀ a ∈ l, dupMatch a b = false) →
      List.Pairwise (fun a b => dupMatch a b = false) es →
      feedEvents cap (l.take cap) es = (es.reverse ++ l).take cap := by
  induction es with
  | nil => intro l _ _; simp [feedEvents]
  | cons e es ih =>
      intro l h1 h2
      have hstep : addEvent cap (l.take cap) e = (e :: l).take cap := by
        rw [addEvent_not_dup]
        · exact take_cons_take e l cap
        · intro a ha
          exact h1 e (List.mem_cons_self e es) a (List.mem_of_mem_take ha)
      have hrec := ih (e :: l)
        (by
          intro b hb a ha
          rcases List.mem_cons.mp ha with h | h
          · subst h
            exact (List.pairwise_cons.mp h2).1 b hb
          · exact h1 b (List.mem_cons_of_mem e hb) a h)
        (List.pairwise_cons.mp h2).2
      calc feedEvents cap (l.take cap) (e :: es)
          = feedEvents cap (addEvent cap (l.take cap) e) es := rfl
        _ = feedEvents cap ((e :: l).take cap) es := by rw [hstep]
        _ = (es.reverse ++ (e :: l)).take cap := hrec
        _ = ((e :: es).reverse ++ l).take cap := by
              simp [List.reverse_cons, List.append_assoc]

theorem capFeed_pairwise :
    List.Pairwise (fun a b => dupMatch a b = false) capFeed := by
  unfold capFeed
  refine List.Pairwise.map _ ?_ (List.pairwise_lt_range 150)
  intro i j hij
  simp [dupMatch, mkFeedEvent]
  omega

/-- C7: the client merger drops an incoming event whenever an existing
entry has the same type, the same title, and a timestamp within 1000 ms
of it, leaving the list unchanged; two same-type-same-title events
500 ms apart therefore yield one entry, while 1500 ms apart they yield
two. -/
theorem client_dedup_within_window :
    (∀ (cap : Nat) (prev : List UnifiedEvent) (e : UnifiedEvent),
        (∃ x ∈ prev, x.type = e.type ∧ x.title = e.title ∧
          (x.timestamp - e.timestamp).natAbs < 1000) →
        addEvent cap prev e = prev) ∧
    (feedEvents 100 [] [mkFeedEvent 0 "t", mkFeedEvent 500 "t"]).length = 1 ∧
    (feedEvents 100 [] [mkFeedEvent 0 "t", mkFeedEvent 1500 "t"]).length = 2 := by
  refine ⟨?_, by decide, by decide⟩
  intro cap prev e h
  have hdup : isDuplicate prev e = true := by
    rcases h with ⟨x, hx, ht, hti, hts⟩
    simp only [isDuplicate, List.any_eq_true]
    exact ⟨x, hx, by simp [dupMatch, ht, hti, hts]⟩
  simp [addEvent, hdup]

/-- C7 witness: with one entry in the list, a same-type-same-title event
500 ms later is dropped. -/
theorem client_dedup_within_window_witness :
    addEvent 100 [mkFeedEvent 0 "t"] (mkFeedEvent 500 "t") = [mkFeedEvent 0 "t"] :=
  client_dedup_within_window.1 100 [mkFeedEvent 0 "t"] (mkFeedEvent 500 "t")
    ⟨mkFeedEvent 0 "t", by decide, by decide, by decide, by decide⟩

/-- C8: one `addEvent` insertion never grows the list beyond the cap
(when it was within the cap before), and feeding 150 sequential unique
events with cap 100 into an empty merger leaves exactly 100 entries —
the 100 most recently inserted ones, newest first. -/
theorem client_cap_bound :
    (∀ (cap : Nat) (prev : List UnifiedEvent) (e : UnifiedEvent),
        prev.length ≤ cap → (addEvent cap prev e).length ≤ cap) ∧
    (feedEvents 100 [] capFeed).length = 100 ∧
    feedEvents 100 [] capFeed = capFeed.reverse.take 100 := by
  have hfeed : feedEvents 100 [] capFeed = capFeed.reverse.take 100 := by
    have h := feedEvents_fresh 100 capFeed []
      (by intro b _ a ha; simp at ha) capFeed_pairwise
    simp only [List.take_nil, List.append_nil] at h
    exact h
  refine ⟨?_, ?_, hfeed⟩
  · intro cap prev e hlen
    unfold addEvent
    split
    · exact hlen
    · simp
  · rw [hfeed]
    simp [capFeed]

/-- C8 witness: a full two-entry list with cap 2 stays at two entries
after inserting a third, non-duplicate event. -/
theorem client_cap_bound_witness :
    (addEvent 2 [mkFeedEvent 0 "a", mkFeedEvent 5000 "b"] (mkFeedEvent 9000 "c")).length ≤ 2 :=
  client_cap_bound.1 2 [mkFeedEvent 0 "a", mkFeedEvent 5000 "b"] (mkFeedEvent 9000 "c")
    (by decide)

/-! ## Alert evaluator lemmas -/

theorem fireStep_fst_mem (cond : Prop) [Decidable cond] (now : Int) (code : String)
    (sev : Severity) (cat : Category) (acc : List TelemetryAlert × AlertState)
    (q : String) :
    (∃ a ∈ (fireStep cond now code sev cat acc).1, a.code = q) ↔
      ((∃ a ∈ acc.1, a.code = q) ∨
        (q = code ∧ cond ∧ now - ((acc.2 code).getD 0) > ALERT_COOLDOWN)) := by
  by_cases hc : cond
  · by_cases hcool : now - ((acc.2 code).getD 0) > ALERT_COOLDOWN
    · simp only [fireStep, maybeAlert, if_pos hc, gt_iff_lt]
      rw [if_pos hcool]
      simp only [List.mem_append, List.mem_singleton]
      constructor
      · rintro ⟨a, ha | ha, hq⟩
        · exact Or.inl ⟨a, ha, hq⟩
        · subst ha
          exact Or.inr ⟨hq.symm, hc, hcool⟩
      · rintro (⟨a, ha, hq⟩ | ⟨hq, _, _⟩)
        · exact ⟨a, Or.inl ha, hq⟩
        · exact ⟨_, Or.inr rfl, hq.symm⟩
    · simp only [fireStep, maybeAlert, if_pos hc, gt_iff_lt]
      rw [if_neg hcool]
      simp only [iff_self_or]
      rintro ⟨_, _, hcool2⟩
      exact absurd hcool2 hcool
  · simp only [fireStep, if_neg hc, iff_self_or]
    rintro ⟨_, hc2, _⟩
    exact absurd hc2 hc

theorem fireStep_snd (cond : Prop) [Decidable cond] (now : Int) (code : String)
    (sev : Severity) (cat : Category) (acc : List TelemetryAlert × AlertState)
    (q : String) :
    (fireStep cond now code sev cat acc).2 q =
      if q = code ∧ cond ∧ now - ((acc.2 code).getD 0) > ALERT_COOLDOWN then some now
      else acc.2 q := by
  by_cases hc : cond
  · by_cases hcool : now - ((acc.2 code).getD 0) > ALERT_COOLDOWN
    · simp only [fireStep, maybeAlert, if_pos hc, gt_iff_lt]
      rw [if_pos hcool]
      by_cases hq : q = code
      · simp [hq, hc, hcool]
      · simp [hq]
    · simp only [fireStep, maybeAlert, if_pos hc, gt_iff_lt]
      rw [if_neg hcool]
      have hno : ¬ (q = code ∧ cond ∧ now - ((acc.2 code).getD 0) > ALERT_COOLDOWN) := by
        rintro ⟨_, _, h⟩; exact hcool h
      simp [hno]
  · have hno : ¬ (q = code ∧ cond ∧ now - ((acc.2 code).getD 0) > ALERT_COOLDOWN) := by
      rintro ⟨_, h, _⟩; exact hc h
    simp [fireStep, if_neg hc, hno]

theorem clearStep_eq (cond : Prop) [Decidable cond] (code : String)
    (st : AlertState) (q : String) :
    clearStep cond code st q = if q = code ∧ cond then none else st q := by
  by_cases hc : cond
  · simp only [clearStep, deleteCode, if_pos hc]
    by_cases hq : q = code
    · simp [hq, hc]
    · simp [hq]
  · have hno : ¬ (q = code ∧ cond) := by rintro ⟨_, h⟩; exact hc h
    simp [clearStep, if_neg hc, hno]

/-- Per-code characterization of one `checkAlerts` evaluation: an alert
with code `c` is in the output iff `c`'s condition holds and the
cooldown has elapsed (with 0 for an absent entry), and the resulting
cooldown entry for `c` is `now` on fire, unchanged on a suppressed fire,
and deleted whenever the condition does not hold. -/
theorem checkAlerts_code (c : AlertCode) (s : TelemetrySnapshot)
    (st : AlertState) (now : Int) :
    ((∃ a ∈ (checkAlerts s st now).1, a.code = c.str) ↔
      (c.cond s ∧ now - ((st c.str).getD 0) > ALERT_COOLDOWN)) ∧
    ((checkAlerts s st now).2 c.str =
      if c.cond s then
        (if now - ((st c.str).getD 0) > ALERT_COOLDOWN then some now else st c.str)
      else none) := by
  cases c <;>
    (constructor
     · simp [checkAlerts, AlertCode.str, AlertCode.cond,
         fireStep_fst_mem, fireStep_snd]
     · simp [checkAlerts, AlertCode.str, AlertCode.cond,
         clearStep_eq, fireStep_snd]
       split_ifs <;> first | rfl | omega | tauto)

/-- C5: when an alert code's condition holds at evaluation time `now`,
the alert fires iff `now` minus the code's last-fired timestamp (0 when
absent) exceeds 60000 ms, and on firing the code's last-fired timestamp
is set to `now`. -/
theorem alert_cooldown_fire (c : AlertCode) (s : TelemetrySnapshot)
    (st : AlertState) (now : Int) (h : c.cond s) :
    ((∃ a ∈ (checkAlerts s st now).1, a.code = c.str) ↔
      now - ((st c.str).getD 0) > ALERT_COOLDOWN) ∧
    (now - ((st c.str).getD 0) > ALERT_COOLDOWN →
      (checkAlerts s st now).2 c.str = some now) := by
  have m := checkAlerts_code c s st now
  constructor
  · rw [m.1]
    exact and_iff_right h
  · intro hcool
    rw [m.2, if_pos h, if_pos hcool]

/-- C5 witness: `mq_backlog` fired at t = 0 with the backlog condition
still holding: re-evaluation at t = 30000 produces no new `mq_backlog`
alert, re-evaluation at t = 61000 fires again and records 61000. -/
theorem alert_cooldown_fire_witness :
    (¬ ∃ a ∈ (checkAlerts snapMQ stFiredMQ 30000).1, a.code = "mq_backlog") ∧
    (∃ a ∈ (checkAlerts snapMQ stFiredMQ 61000).1, a.code = "mq_backlog") ∧
    (checkAlerts snapMQ stFiredMQ 61000).2 "mq_backlog" = some 61000 := by
  refine ⟨?_, ?_, ?_⟩
  · intro hex
    have h30 := (alert_cooldown_fire AlertCode.mq_backlog snapMQ stFiredMQ 30000
      (by decide)).1.mp hex
    revert h30
    decide
  · exact (alert_cooldown_fire AlertCode.mq_backlog snapMQ stFiredMQ 61000
      (by decide)).1.mpr (by decide)
  · exact (alert_cooldown_fire AlertCode.mq_backlog snapMQ stFiredMQ 61000
      (by decide)).2 (by decide)

/-- C6: when an alert code's condition does not hold at an evaluation,
the code's cooldown entry is deleted unconditionally — whatever its
remaining cooldown — and consequently, in a fire / clear / re-trigger
sequence of evaluations with non-decreasing clock, the re-trigger fires
again immediately, even inside the original 60-second window of the
first fire. -/
theorem alert_rearm_on_clear (c : AlertCode) (s1 s2 s3 : TelemetrySnapshot)
    (st0 : AlertState) (t1 t2 t3 : Int)
    (hnn : 0 ≤ ((st0 c.str).getD 0))
    (h1 : ∃ a ∈ (checkAlerts s1 st0 t1).1, a.code = c.str)
    (h2 : ¬ c.cond s2) (h3 : c.cond s3) (h13 : t1 ≤ t3) :
    (∀ (s : TelemetrySnapshot) (st : AlertState) (now : Int),
        ¬ c.cond s → (checkAlerts s st now).2 c.str = none) ∧
    (∃ a ∈ (checkAlerts s3
        ((checkAlerts s2 ((checkAlerts s1 st0 t1).2) t2).2) t3).1,
      a.code = c.str) := by
  have hdel : ∀ (s : TelemetrySnapshot) (st : AlertState) (now : Int),
      ¬ c.cond s → (checkAlerts s st now).2 c.str = none := by
    intro s st now hna
    rw [(checkAlerts_code c s st now).2, if_neg hna]
  refine ⟨hdel, ?_⟩
  have ht1 : t1 > ALERT_COOLDOWN := by
    have hfire := ((checkAlerts_code c s1 st0 t1).1.mp h1).2
    unfold ALERT_COOLDOWN at hfire ⊢
    omega
  have hmid : (checkAlerts s2 ((checkAlerts s1 st0 t1).2) t2).2 c.str = none :=
    hdel s2 ((checkAlerts s1 st0 t1).2) t2 h2
  refine ((checkAlerts_code c s3 _ t3).1).mpr ⟨h3, ?_⟩
  rw [hmid]
  unfold ALERT_COOLDOWN at ht1 ⊢
  simp only [Option.getD_none]
  omega

/-- C6 witness: `mq_backlog` fires at t = 70000, the condition clears at
t = 80000, re-triggers at t = 85000 — inside the original 60 s window —
and the alert fires again. -/
theorem alert_rearm_on_clear_witness :
    ∃ a ∈ (checkAlerts snapMQ
        ((checkAlerts snapQuiet
          ((checkAlerts snapMQ (fun _ => none) 70000).2) 80000).2) 85000).1,
      a.code = "mq_backlog" :=
  (alert_rearm_on_clear AlertCode.mq_backlog snapMQ snapQuiet snapMQ
    (fun _ => none) 70000 80000 85000 (by decide) (by decide)
    (by decide) (by decide) (by decide)).2

/-! ## Streamer lifecycle lemmas -/

theorem mem_setClient_self (cl : List String) (id : String) :
    id ∈ setClient cl id := by
  unfold setClient
  split
  · next h => simpa using h
  · exact List.mem_append_right _ (List.mem_singleton_self id)

theorem mem_setClient_of_mem (cl : List String) (a id : String) (h : a ∈ cl) :
    a ∈ setClient cl id := by
  unfold setClient
  split
  · exact h
  · exact List.mem_append_left _ h

/-- C2 counterexample: after the last subscriber disconnects
(`stopPolling`: previous snapshot null, alert state empty), a first poll
tick whose fetch reports an uninitialized system at clock 100000 ms
broadcasts, besides the single Snapshot event and zero Change events,
ONE Alert event (`system_offline`) — not zero, because `checkAlerts`
runs on every tick, not only when a previous snapshot exists. -/
theorem first_tick_alert_counterexample :
    (stopPolling sessionState).previousStatus = none ∧
    (∀ k, (stopPolling sessionState).alertState k = none) ∧
    ((poll (stopPolling sessionState) (Except.ok frOffline) 100000).1.countP
      isSnapshotMsg) = 1 ∧
    ((poll (stopPolling sessionState) (Except.ok frOffline) 100000).1.countP
      isEventMsg) = 0 ∧
    ((poll (stopPolling sessionState) (Except.ok frOffline) 100000).1.countP
      isAlertMsg) = 1 :=
  ⟨rfl, fun _ => rfl, by decide, by decide, by decide⟩

/-- C2 (amended): after the last subscriber disconnects the poller's
previous-snapshot reference and alert-cooldown map are cleared, and the
first successful poll tick after a fresh Idle→Polling transition
broadcasts exactly one Snapshot event and zero Change events; Alert
events, however, may be broadcast on that first tick whenever their
conditions hold, since alert evaluation is not gated on a previous
snapshot. -/
theorem first_tick_snapshot_no_changes (st : StreamerState) (fr : FetchResult)
    (now : Int) :
    (stopPolling st).previousStatus = none ∧
    (∀ k, (stopPolling st).alertState k = none) ∧
    ((poll (stopPolling st) (Except.ok fr) now).1.countP isSnapshotMsg) = 1 ∧
    ((poll (stopPolling st) (Except.ok fr) now).1.countP isEventMsg) = 0 := by
  refine ⟨rfl, fun _ => rfl, ?_, ?_⟩ <;>
    cases hs : fr.status <;>
      simp [poll, stopPolling, hs, List.countP_cons, List.countP_map,
        Function.comp, isSnapshotMsg, isEventMsg, isAlertMsg,
        List.countP_eq_zero]

/-- C9: every `addClient` call overwrites the shared streamer's
`townRoot` scope; earlier subscribers remain registered, and a
subsequent poll tick fetches with the streamer's current `townRoot` —
the scope of the most recent attach — on behalf of everyone. -/
theorem telemetry_scope_overwrite (st : StreamerState) (c1 c2 : String)
    (r1 r2 : Option String) (f : Option String → Except String FetchResult)
    (now : Int) :
    ((addClient ((addClient st c1 r1).2) c2 r2).2).townRoot = r2 ∧
    c1 ∈ ((addClient ((addClient st c1 r1).2) c2 r2).2).clients ∧
    c2 ∈ ((addClient ((addClient st c1 r1).2) c2 r2).2).clients ∧
    pollWith ((addClient ((addClient st c1 r1).2) c2 r2).2) f now =
      poll ((addClient ((addClient st c1 r1).2) c2 r2).2) (f r2) now := by
  refine ⟨rfl, ?_, ?_, rfl⟩
  · exact mem_setClient_of_mem _ c1 c2 (mem_setClient_self st.clients c1)
  · exact mem_setClient_self _ c2

/-- C10: `stopPolling` (the Polling→Idle transition) clears the
previous-snapshot reference and the alert-cooldown map but leaves
`lastSnapshot` in place, so the first subscriber of a later session is
immediately sent the stale Snapshot event built during the previous
session, before any fresh poll. -/
theorem stale_snapshot_to_new_subscriber (st : StreamerState) (c : String)
    (r : Option String) (snap : TelemetrySnapshot)
    (h : st.lastSnapshot = some snap) :
    (stopPolling st).lastSnapshot = some snap ∧
    (stopPolling st).previousStatus = none ∧
    (∀ k, (stopPolling st).alertState k = none) ∧
    (addClient (stopPolling st) c r).1 = [TelemetryMsg.snapshot snap] := by
  refine ⟨by simp [stopPolling, h], rfl, fun _ => rfl, ?_⟩
  simp [addClient, stopPolling, h]

/-- C10 witness: a session state whose last snapshot is `snapMQ`, after
`stopPolling`, immediately sends `snapMQ` to a freshly attached
client. -/
theorem stale_snapshot_to_new_subscriber_witness :
    (addClient (stopPolling sessionState) "c2" none).1 =
      [TelemetryMsg.snapshot snapMQ] :=
  (stale_snapshot_to_new_subscriber sessionState "c2" none snapMQ rfl).2.2.2

/-! ## Snapshot differ lemmas -/

theorem agentChangeEvent_agent (prevs : List AgentRuntime) (b : AgentRuntime)
    (e : TelemetryEvent) (h : agentChangeEvent prevs b = some e) :
    e.data.agent = some b.name := by
  unfold agentChangeEvent at h
  split at h
  · simp only [Option.some.injEq] at h
    subst h
    rfl
  · split_ifs at h <;> simp only [Option.some.injEq] at h <;> subst h <;> rfl

theorem rigChangeEvent_agent (prevs : List RigStatus) (r : RigStatus)
    (e : TelemetryEvent) (h : rigChangeEvent prevs r = some e) :
    e.data.agent = none := by
  unfold rigChangeEvent at h
  split at h
  · simp only [Option.some.injEq] at h
    subst h
    rfl
  · split_ifs at h <;> simp only [Option.some.injEq] at h <;> subst h <;> rfl

theorem agents_filter_nil (prevs : List AgentRuntime) (l : List AgentRuntime)
    (nm : String) (h : ∀ a ∈ l, a.name ≠ nm) :
    (l.filterMap (agentChangeEvent prevs)).filter
      (fun e => e.data.agent == some nm) = [] := by
  rw [List.filter_eq_nil_iff]
  intro e he
  rcases List.mem_filterMap.mp he with ⟨a, ha, hae⟩
  have hname := agentChangeEvent_agent prevs a e hae
  simp [hname, h a ha]

theorem agents_filter_attr (prevs : List AgentRuntime) (l : List AgentRuntime)
    (agent : AgentRuntime)
    (hnd : (l.map (fun a => a.name)).Nodup) (hmem : agent ∈ l) :
    (l.filterMap (agentChangeEvent prevs)).filter
      (fun e => e.data.agent == some agent.name) =
      (agentChangeEvent prevs agent).toList := by
  induction l with
  | nil => cases hmem
  | cons b l ih =>
      simp only [List.map_cons, List.nodup_cons] at hnd
      rcases List.mem_cons.mp hmem with hb | hb
      · subst hb
        have htail : (l.filterMap (agentChangeEvent prevs)).filter
            (fun e => e.data.agent == some agent.name) = [] := by
          refine agents_filter_nil prevs l agent.name ?_
          intro a ha hcontra
          exact hnd.1 (hcontra ▸ List.mem_map_of_mem (fun x => x.name) ha)
        rw [List.filterMap_cons]
        cases hb : agentChangeEvent prevs agent with
        | none => simp [htail]
        | some e =>
            have hname := agentChangeEvent_agent prevs agent e hb
            simp [List.filter_cons, hname, htail]
      · have hbne : b.name ≠ agent.name := by
          intro hcontra
          exact hnd.1 (hcontra ▸ List.mem_map_of_mem (fun x => x.name) hb)
        rw [List.filterMap_cons]
        cases hbb : agentChangeEvent prevs b with
        | none => exact ih hnd.2 hb
        | some e =>
            have hname := agentChangeEvent_agent prevs b e hbb
            rw [List.filter_cons]
            have hpred : (e.data.agent == some agent.name) = false := by
              simp [hname, hbne]
            simp only [hpred, Bool.false_eq_true, if_false]
            exact ih hnd.2 hb

theorem left_events_filter_nil (prev curr : TownStatus) (agent : AgentRuntime)
    (hmem : agent ∈ curr.agents) :
    ((prev.agents.filterMap (fun prevAgent =>
        if curr.agents.find? (fun a => a.name == prevAgent.name) == none then
          some ({ category := Category.agent, event_type := "left",
                  data := { agent := some prevAgent.name } } : TelemetryEvent)
        else none)).filter (fun e => e.data.agent == some agent.name)) = [] := by
  rw [List.filter_eq_nil_iff]
  intro e he
  rcases List.mem_filterMap.mp he with ⟨pa, hpa, hpe⟩
  by_cases hfind : (curr.agents.find? (fun a => a.name == pa.name) == none) = true
  · rw [if_pos hfind] at hpe
    simp only [Option.some.injEq] at hpe
    subst hpe
    simp only [beq_iff_eq, Option.some.injEq]
    intro hname
    rw [beq_iff_eq] at hfind
    have hall := List.find?_eq_none.mp hfind agent hmem
    simp [hname] at hall
  · rw [if_neg hfind] at hpe
    cases hpe

theorem rig_events_filter_nil (prev curr : TownStatus) (nm : String) :
    ((curr.rigs.filterMap (rigChangeEvent prev.rigs)).filter
      (fun e => e.data.agent == some nm)) = [] := by
  rw [List.filter_eq_nil_iff]
  intro e he
  rcases List.mem_filterMap.mp he with ⟨r, hr, hre⟩
  simp [rigChangeEvent_agent prev.rigs r e hre]

/-- Decomposition: the per-tick events attributed to an agent present in
`curr.agents` (with pairwise-distinct current names) are exactly the
output of the per-agent branch chain for that agent. -/
theorem agentEvents_eq (prev curr : TownStatus) (agent : AgentRuntime)
    (hmem : agent ∈ curr.agents)
    (hnd : (curr.agents.map (fun a => a.name)).Nodup) :
    agentEvents prev curr agent.name =
      (agentChangeEvent prev.agents agent).toList := by
  unfold agentEvents detectChanges
  rw [List.filter_append, List.filter_append]
  rw [agents_filter_attr prev.agents curr.agents agent hnd hmem]
  rw [left_events_filter_nil prev curr agent hmem]
  rw [rig_events_filter_nil prev curr agent.name]
  simp

/-- C4: for an agent present in both snapshots (current names pairwise
distinct), the diff emits at most one change event for that agent per
tick, chosen by fixed priority with first match winning: a running-flag
change yields started/stopped; otherwise has-work false→true yields a
work-started event carrying the current work id and title; otherwise
has-work true→false yields a work-completed event carrying the previous
snapshot's work id; otherwise a changed, non-empty state tag yields
state_changed carrying the old and new state. -/
theorem diff_at_most_one_per_agent (prev curr : TownStatus)
    (agent pa : AgentRuntime) (hmem : agent ∈ curr.agents)
    (hnd : (curr.agents.map (fun a => a.name)).Nodup)
    (hpa : prev.agents.find? (fun a => a.name == agent.name) = some pa) :
    (agentEvents prev curr agent.name).length ≤ 1 ∧
    (pa.running ≠ agent.running →
      agentEvents prev curr agent.name =
        [{ category := Category.agent,
           event_type := if agent.running then "started" else "stopped",
           data := { agent := some agent.name } }]) ∧
    (pa.running = agent.running → pa.has_work = false → agent.has_work = true →
      agentEvents prev curr agent.name =
        [{ category := Category.work, event_type := "started",
           data := { agent := some agent.name, bead_id := agent.hook_bead,
                     title := agent.work_title } }]) ∧
    (pa.running = agent.running → pa.has_work = true → agent.has_work = false →
      agentEvents prev curr agent.name =
        [{ category := Category.work, event_type := "completed",
           data := { agent := some agent.name, bead_id := pa.hook_bead } }]) ∧
    (pa.running = agent.running → pa.has_work = agent.has_work →
      pa.state ≠ agent.state → stateTruthy agent.state = true →
      agentEvents prev curr agent.name =
        [{ category := Category.agent, event_type := "state_changed",
           data := { agent := some agent.name, old_state := pa.state,
                     new_state := agent.state } }]) := by
  have heq := agentEvents_eq prev curr agent hmem hnd
  refine ⟨?_, ?_, ?_, ?_, ?_⟩
  · rw [heq]
    cases agentChangeEvent prev.agents agent <;> simp
  · intro h
    rw [heq]
    simp [agentChangeEvent, hpa, bne_iff_ne, h]
  · intro h1 h2 h3
    rw [heq]
    simp [agentChangeEvent, hpa, h1, h2, h3]
  · intro h1 h2 h3
    rw [heq]
    simp [agentChangeEvent, hpa, h1, h2, h3]
  · intro h1 h2 h3 h4
    rw [heq]
    simp [agentChangeEvent, hpa, h1, h2, bne_iff_ne, h3, h4]

/-- C4 witness: `polecat-1` stays running and picks up bead `bd-42`
between two snapshots; the diff attributes exactly the single
work-started event, carrying the current work id and title, to it. -/
theorem diff_at_most_one_per_agent_witness :
    agentEvents townBefore townAfter "polecat-1" =
      [{ category := Category.work, event_type := "started",
         data := { agent := some "polecat-1", bead_id := some "bd-42",
                   title := some "Fix login" } }] :=
  (diff_at_most_one_per_agent townBefore townAfter polecatAfter polecatBefore
    (by decide) (by decide) (by decide)).2.2.1 rfl rfl rfl

end Gastown
